import Mathlib

/-
Verification of the announcement-app HTTP backend (student and subscription
routes) against its specification.

The route handlers in `Routes` are shallow embeddings of the two source
files `api/routes/student.py` and `api/routes/subscription.py`.  The
data-access layer (`api.crud.*`), the request/response schemas and the auth
dependency are not part of the given sources; the definitions in `Crud` and
the schema structures are modelled from the specification, as noted in
their doc comments.

Python integers are embedded as `Int`; an ORM row absent from the database
is `Option.none`.  A handler either raises an `HTTPException` (embedded as
returning that status with the database untouched) or runs to its final
`return`; the status actually sent on that path is the status code of the
route decorator, except when the handler returns a `Response` object
directly, in which case FastAPI sends that response as-is (for a
`JSONResponse` built without an explicit status code this means 200).
-/

namespace AnnouncementApp

/-- A stored student row: id plus the unique email and matricule.  Profile
fields not read by any route check are omitted. -/
structure Student where
  id : Int
  email : String
  matricule : String
deriving Repr, DecidableEq

/-- A stored channel row; its descriptive fields are not read by any check. -/
structure Channel where
  id : Int
deriving Repr, DecidableEq

/-- A stored subscription row relating a channel and a student. -/
structure Subscription where
  channel_id : Int
  student_id : Int
deriving Repr, DecidableEq

/-- The database state: the three tables, each a list of rows in insertion
order. -/
structure DB where
  students : List Student
  channels : List Channel
  subs : List Subscription
deriving Repr, DecidableEq

/-- Request body of POST /students/ (the fields the handler reads). -/
structure StudentCreate where
  email : String
  matricule : String
deriving Repr, DecidableEq

/-- Request body of PUT /students/:student_id (the fields the handler reads). -/
structure StudentUpdate where
  email : String
  matricule : String
deriving Repr, DecidableEq

/-- Request body of POST /subscriptions/. -/
structure SubscriptionCreate where
  channel_id : Int
  student_id : Int
deriving Repr, DecidableEq

/-- Modelled from the spec: the auth dependency (`get_current_student`, not
under src/) decodes a bearer token into a caller identity, the calling
student id.  The student routes read it as `current_student.id` and the
subscription routes as `current_student.student_id`; both denote the same
identity. -/
structure StudentJWT where
  student_id : Int
deriving Repr, DecidableEq

/-- The caller identity as read by the student routes (`current_student.id`). -/
def StudentJWT.id (t : StudentJWT) : Int := t.student_id

namespace Crud

/-- Modelled from the spec: `api.crud.student.get_student` (not under src/),
a lookup by id.  Returns the stored student with the given id, if any. -/
def get_student (db : DB) (student_id : Int) : Option Student :=
  db.students.find? (fun s => s.id == student_id)

/-- Modelled from the spec: `api.crud.student.get_student_by_email` (not
under src/), a lookup by the unique email field. -/
def get_student_by_email (db : DB) (email : String) : Option Student :=
  db.students.find? (fun s => s.email == email)

/-- Modelled from the spec: `api.crud.student.get_student_by_matricule` (not
under src/), a lookup by the unique matricule field. -/
def get_student_by_matricule (db : DB) (matricule : String) : Option Student :=
  db.students.find? (fun s => s.matricule == matricule)

/-- Modelled from the spec: `api.crud.channel.get_channel` (not under src/),
a lookup by id. -/
def get_channel (db : DB) (channel_id : Int) : Option Channel :=
  db.channels.find? (fun c => c.id == channel_id)

/-- Modelled from the spec: `api.crud.subscription.get_sub_by_channel_and_student`
(not under src/), a lookup by the composite (channel_id, student_id) filter.
Its use in `create_new_subscription` (compared against `None`, then a 400
"Already subscribed" raised when it is not `None`) forces it to return a
single row or nothing, not a list. -/
def get_sub_by_channel_and_student (db : DB) (channel_id student_id : Int) :
    Option Subscription :=
  db.subs.find? (fun x => x.channel_id == channel_id && x.student_id == student_id)

/-- Modelled from the spec: `api.crud.subscription.get_subscriptions_for_channel`
(not under src/), the subscriptions with the given channel id. -/
def get_subscriptions_for_channel (db : DB) (channel_id : Int) : List Subscription :=
  db.subs.filter (fun x => x.channel_id == channel_id)

/-- Modelled from the spec: `api.crud.subscription.get_subscriptions_for_student`
(not under src/), the subscriptions with the given student id. -/
def get_subscriptions_for_student (db : DB) (student_id : Int) : List Subscription :=
  db.subs.filter (fun x => x.student_id == student_id)

/-- Modelled from the spec: `api.crud.subscription.get_subscriptions` (not
under src/), all subscriptions paginated by skip and limit. -/
def get_subscriptions (db : DB) (skip limit : Nat) : List Subscription :=
  (db.subs.drop skip).take limit

/-- Modelled from the spec: the database assigns a fresh id on insert. -/
def nextStudentId (db : DB) : Int :=
  (db.students.map Student.id).foldr max 0 + 1

/-- Modelled from the spec: `api.crud.student.create_student` (not under
src/), inserting a new student row built from the request body. -/
def create_student (db : DB) (s : StudentCreate) : DB :=
  { db with students := db.students ++ [⟨nextStudentId db, s.email, s.matricule⟩] }

/-- Modelled from the spec: `api.crud.student.other_student_with_same_email`
(not under src/): whether a student other than the one being updated already
has the email of the update body. -/
def other_student_with_same_email (db : DB) (student_id : Int) (s : StudentUpdate) :
    Bool :=
  db.students.any (fun t => t.id != student_id && t.email == s.email)

/-- Modelled from the spec: `api.crud.student.other_student_with_same_matricule`
(not under src/): whether a student other than the one being updated already
has the matricule of the update body. -/
def other_student_with_same_matricule (db : DB) (student_id : Int) (s : StudentUpdate) :
    Bool :=
  db.students.any (fun t => t.id != student_id && t.matricule == s.matricule)

/-- Modelled from the spec: `api.crud.student.update_student` (not under
src/), overwriting the row with the given id with the update body. -/
def update_student (db : DB) (s : StudentUpdate) (student_id : Int) : DB :=
  { db with students := db.students.map fun t =>
      if t.id == student_id then { t with email := s.email, matricule := s.matricule } else t }

/-- Modelled from the spec: `api.crud.student.delete_student` (not under
src/), removing the row with the given id. -/
def delete_student (db : DB) (student_id : Int) : DB :=
  { db with students := db.students.filter (fun t => t.id != student_id) }

/-- Modelled from the spec: `api.crud.subscription.subscribe` (not under
src/), inserting the subscription row built from the request body. -/
def subscribe (db : DB) (s : SubscriptionCreate) : DB :=
  { db with subs := db.subs ++ [⟨s.channel_id, s.student_id⟩] }

/-- Modelled from the spec: `api.crud.subscription.unsubscribe` (not under
src/), removing the rows with the given channel and student ids. -/
def unsubscribe (db : DB) (channel_id student_id : Int) : DB :=
  { db with subs := db.subs.filter fun x =>
      !(x.channel_id == channel_id && x.student_id == student_id) }

end Crud

/-- Outcome of a state-changing route handler: the HTTP status actually sent
and the database state after the handler ran. -/
structure RouteResult where
  status : Nat
  db : DB
deriving Repr, DecidableEq

/-- Value returned by GET /subscriptions/: either a list of rows (three of
the four branches) or, in the branch where both filters are supplied, the
single optional row produced by `get_sub_by_channel_and_student`. -/
inductive SubsQueryResult where
  | list (xs : List Subscription)
  | single (x : Option Subscription)
deriving Repr, DecidableEq

namespace Routes

/-- POST /students/ (`create_student` in api/routes/student.py): a 400 when a
stored student already has the email, a 400 when one already has the
matricule, otherwise insert and respond with the declared 201. -/
def create_student (db : DB) (student : StudentCreate) : RouteResult :=
  if (Crud.get_student_by_email db student.email).isSome then ⟨400, db⟩
  else if (Crud.get_student_by_matricule db student.matricule).isSome then ⟨400, db⟩
  else ⟨201, Crud.create_student db student⟩

/-- PUT /students/:student_id (`update_student` in api/routes/student.py):
404 when the target id is absent, 403 when the stored target id differs from
the caller identity, 400 on an email or matricule taken by another student,
otherwise update and respond with the declared 200. -/
def update_student (db : DB) (student_id : Int) (student : StudentUpdate)
    (current_student : StudentJWT) : RouteResult :=
  match Crud.get_student db student_id with
  | none => ⟨404, db⟩
  | some db_student =>
    if db_student.id != current_student.id then ⟨403, db⟩
    else if Crud.other_student_with_same_email db student_id student then ⟨400, db⟩
    else if Crud.other_student_with_same_matricule db student_id student then ⟨400, db⟩
    else ⟨200, Crud.update_student db student student_id⟩

/-- DELETE /students/:student_id (`delete_student` in api/routes/student.py):
404 when the target id is absent, 403 when the stored target id differs from
the caller identity, otherwise delete.  The route decorator declares 204, but
the success path returns a `JSONResponse` built without a status code;
FastAPI sends a returned `Response` object as-is, so the status actually
sent on success is the JSONResponse default, 200. -/
def delete_student (db : DB) (student_id : Int) (current_student : StudentJWT) :
    RouteResult :=
  match Crud.get_student db student_id with
  | none => ⟨404, db⟩
  | some db_student =>
    if db_student.id != current_student.id then ⟨403, db⟩
    else ⟨200, Crud.delete_student db student_id⟩

/-- GET /subscriptions/ (`get_subscriptions` in api/routes/subscription.py).
The handler tests `channel_id is not None and student_id is not None` first,
then `elif channel_id:` and `elif student_id:`, which are Python truthiness
tests: a supplied filter equal to 0 is falsy and falls through to the
unfiltered branch.  The both-supplied branch returns the value of
`get_sub_by_channel_and_student` (a single row or nothing). -/
def get_subscriptions (db : DB) (channel_id student_id : Option Int)
    (skip limit : Nat) : SubsQueryResult :=
  match channel_id, student_id with
  | some c, some s => .single (Crud.get_sub_by_channel_and_student db c s)
  | some c, none =>
    if c != 0 then .list (Crud.get_subscriptions_for_channel db c)
    else .list (Crud.get_subscriptions db skip limit)
  | none, some s =>
    if s != 0 then .list (Crud.get_subscriptions_for_student db s)
    else .list (Crud.get_subscriptions db skip limit)
  | none, none => .list (Crud.get_subscriptions db skip limit)

/-- POST /subscriptions/ (`create_new_subscription` in
api/routes/subscription.py): the handler first runs the duplicate lookup
(which raises nothing), then raises 403 when the body student id differs
from the caller identity, 400 when the pair is already subscribed, 404 when
the channel id or the student id is absent, otherwise inserts and responds
with the declared 201. -/
def create_new_subscription (db : DB) (subscription : SubscriptionCreate)
    (current_student : StudentJWT) : RouteResult :=
  let db_subscription :=
    Crud.get_sub_by_channel_and_student db subscription.channel_id subscription.student_id
  if subscription.student_id != current_student.student_id then ⟨403, db⟩
  else if db_subscription.isSome then ⟨400, db⟩
  else if (Crud.get_channel db subscription.channel_id).isNone then ⟨404, db⟩
  else if (Crud.get_student db subscription.student_id).isNone then ⟨404, db⟩
  else ⟨201, Crud.subscribe db subscription⟩

/-- DELETE /subscriptions/ (`unsubscribe` in api/routes/subscription.py):
403 when the given student id differs from the caller identity, 404 when no
row matches the (channel_id, student_id) pair, otherwise delete.  The route
decorator declares 204, but the success path returns a `JSONResponse` built
without a status code; FastAPI sends a returned `Response` object as-is, so
the status actually sent on success is the JSONResponse default, 200. -/
def unsubscribe (db : DB) (channel_id student_id : Int)
    (current_student : StudentJWT) : RouteResult :=
  if student_id != current_student.student_id then ⟨403, db⟩
  else if (Crud.get_sub_by_channel_and_student db channel_id student_id).isNone then
    ⟨404, db⟩
  else ⟨200, Crud.unsubscribe db channel_id student_id⟩

end Routes

/-- The uniqueness invariant of the subscription table: no two rows share
the (channel_id, student_id) pair. -/
def subsInvariant (db : DB) : Prop :=
  db.subs.Pairwise (fun a b => a.channel_id ≠ b.channel_id ∨ a.student_id ≠ b.student_id)

instance (db : DB) : Decidable (subsInvariant db) := by
  unfold subsInvariant; infer_instance

/-- C1: for every reachable database state there is at most one subscription
row per (channel_id, student_id) pair: every state-changing operation —
create subscription (which rejects a duplicate pair), unsubscribe, and the
three student operations — maps a state satisfying the uniqueness invariant
to a state satisfying it. -/
theorem C1_subscription_pair_unique_invariant (db : DB) (h : subsInvariant db) :
    (∀ sub cur, subsInvariant (Routes.create_new_subscription db sub cur).db) ∧
    (∀ c s cur, subsInvariant (Routes.unsubscribe db c s cur).db) ∧
    (∀ st, subsInvariant (Routes.create_student db st).db) ∧
    (∀ i st cur, subsInvariant (Routes.update_student db i st cur).db) ∧
    (∀ i cur, subsInvariant (Routes.delete_student db i cur).db) := by
  refine ⟨?_, ?_, ?_, ?_, ?_⟩
  · intro sub cur
    unfold Routes.create_new_subscription
    simp only []
    split_ifs with h1 h2 h3 h4
    · exact h
    · exact h
    · exact h
    · exact h
    · show (db.subs ++ ([⟨sub.channel_id, sub.student_id⟩] : List Subscription)).Pairwise _
      rw [List.pairwise_append]
      refine ⟨h, List.pairwise_singleton _ _, ?_⟩
      intro a ha b hb
      rw [List.mem_singleton] at hb
      subst hb
      have hn := Option.not_isSome_iff_eq_none.mp h2
      have hna := List.find?_eq_none.mp hn a ha
      simp only [Bool.and_eq_true, beq_iff_eq, not_and] at hna
      by_cases hc : a.channel_id = sub.channel_id
      · exact Or.inr (hna hc)
      · exact Or.inl hc
  · intro c s cur
    unfold Routes.unsubscribe
    split_ifs with h1 h2
    · exact h
    · exact h
    · exact h.sublist (List.filter_sublist _)
  · intro st
    unfold Routes.create_student
    split_ifs with h1 h2
    · exact h
    · exact h
    · exact h
  · intro i st cur
    unfold Routes.update_student
    cases Crud.get_student db i with
    | none => exact h
    | some t =>
      simp only
      split_ifs with h1 h2 h3
      · exact h
      · exact h
      · exact h
      · exact h
  · intro i cur
    unfold Routes.delete_student
    cases Crud.get_student db i with
    | none => exact h
    | some t =>
      simp only
      split_ifs with h1
      · exact h
      · exact h

/-- Witness for C1 at a concrete state and input. -/
theorem C1_subscription_pair_unique_invariant_witness :
    subsInvariant ⟨[], [], []⟩ ∧
    subsInvariant (Routes.create_new_subscription ⟨[], [], []⟩ ⟨1, 1⟩ ⟨1⟩).db :=
  ⟨by decide, (C1_subscription_pair_unique_invariant ⟨[], [], []⟩ (by decide)).1 ⟨1, 1⟩ ⟨1⟩⟩

/-- C2: a create-student request whose email or matricule equals that of an
already-stored student fails with status 400 and leaves the database (hence
the set of students) unchanged. -/
theorem C2_duplicate_student_create_rejected (db : DB) (req : StudentCreate)
    (h : ∃ t ∈ db.students, t.email = req.email ∨ t.matricule = req.matricule) :
    (Routes.create_student db req).status = 400 ∧
    (Routes.create_student db req).db = db := by
  unfold Routes.create_student
  by_cases he : (Crud.get_student_by_email db req.email).isSome
  · rw [if_pos he]
    exact ⟨rfl, rfl⟩
  · rw [if_neg he]
    have hm : (Crud.get_student_by_matricule db req.matricule).isSome := by
      obtain ⟨t, ht, hdup⟩ := h
      rcases hdup with hdup | hdup
      · exact absurd (List.find?_isSome.mpr ⟨t, ht, by simp [hdup]⟩) he
      · exact List.find?_isSome.mpr ⟨t, ht, by simp [hdup]⟩
    rw [if_pos hm]
    exact ⟨rfl, rfl⟩

/-- Witness for C2: a second student with the email already stored. -/
theorem C2_duplicate_student_create_rejected_witness :
    (∃ t ∈ (⟨[⟨1, "a", "m1"⟩], [], []⟩ : DB).students,
      t.email = "a" ∨ t.matricule = "m2") ∧
    (Routes.create_student ⟨[⟨1, "a", "m1"⟩], [], []⟩ ⟨"a", "m2"⟩).status = 400 ∧
    (Routes.create_student ⟨[⟨1, "a", "m1"⟩], [], []⟩ ⟨"a", "m2"⟩).db =
      ⟨[⟨1, "a", "m1"⟩], [], []⟩ :=
  ⟨by decide, C2_duplicate_student_create_rejected ⟨[⟨1, "a", "m1"⟩], [], []⟩ ⟨"a", "m2"⟩ (by decide)⟩

/-- C3: when the target student exists and the caller identity differs from
the target id, both PUT /students/:id and DELETE /students/:id fail with
status 403 and leave the database unchanged. -/
theorem C3_foreign_caller_update_delete_403 (db : DB) (student_id : Int)
    (upd : StudentUpdate) (cur : StudentJWT)
    (hex : ∃ t ∈ db.students, t.id = student_id)
    (hne : cur.student_id ≠ student_id) :
    (Routes.update_student db student_id upd cur).status = 403 ∧
    (Routes.update_student db student_id upd cur).db = db ∧
    (Routes.delete_student db student_id cur).status = 403 ∧
    (Routes.delete_student db student_id cur).db = db := by
  have hs : (Crud.get_student db student_id).isSome := by
    obtain ⟨t, ht, hid⟩ := hex
    exact List.find?_isSome.mpr ⟨t, ht, by simp [hid]⟩
  obtain ⟨t, hfind⟩ := Option.isSome_iff_exists.mp hs
  have hid : t.id = student_id := by
    have := List.find?_some hfind
    simpa using this
  have hcond : (t.id != cur.id) = true := by
    simp only [bne_iff_ne, ne_eq, hid, StudentJWT.id]
    exact fun hh => hne hh.symm
  unfold Routes.update_student Routes.delete_student
  rw [hfind]
  simp only
  rw [if_pos hcond, if_pos hcond]
  exact ⟨rfl, rfl, rfl, rfl⟩

/-- Witness for C3: caller 2 targeting stored student 1. -/
theorem C3_foreign_caller_update_delete_403_witness :
    (∃ t ∈ (⟨[⟨1, "a", "m1"⟩], [], []⟩ : DB).students, t.id = 1) ∧
    (2 : Int) ≠ 1 ∧
    (Routes.update_student ⟨[⟨1, "a", "m1"⟩], [], []⟩ 1 ⟨"b", "m2"⟩ ⟨2⟩).status = 403 ∧
    (Routes.delete_student ⟨[⟨1, "a", "m1"⟩], [], []⟩ 1 ⟨2⟩).status = 403 :=
  ⟨by decide, by decide,
    (C3_foreign_caller_update_delete_403 ⟨[⟨1, "a", "m1"⟩], [], []⟩ 1 ⟨"b", "m2"⟩ ⟨2⟩
      (by decide) (by decide)).1,
    (C3_foreign_caller_update_delete_403 ⟨[⟨1, "a", "m1"⟩], [], []⟩ 1 ⟨"b", "m2"⟩ ⟨2⟩
      (by decide) (by decide)).2.2.1⟩

/-- C4: when no stored student has the target id, both PUT /students/:id and
DELETE /students/:id fail with status 404 for every caller, and the database
is unchanged. -/
theorem C4_missing_student_update_delete_404 (db : DB) (student_id : Int)
    (upd : StudentUpdate) (cur : StudentJWT)
    (habs : ∀ t ∈ db.students, t.id ≠ student_id) :
    (Routes.update_student db student_id upd cur).status = 404 ∧
    (Routes.update_student db student_id upd cur).db = db ∧
    (Routes.delete_student db student_id cur).status = 404 ∧
    (Routes.delete_student db student_id cur).db = db := by
  have hn : Crud.get_student db student_id = none :=
    List.find?_eq_none.mpr fun t ht => by simpa using habs t ht
  unfold Routes.update_student Routes.delete_student
  rw [hn]
  exact ⟨rfl, rfl, rfl, rfl⟩

/-- Witness for C4: target id 7 absent, caller id 2 differing from 7. -/
theorem C4_missing_student_update_delete_404_witness :
    (∀ t ∈ (⟨[⟨1, "a", "m1"⟩], [], []⟩ : DB).students, t.id ≠ 7) ∧
    (Routes.update_student ⟨[⟨1, "a", "m1"⟩], [], []⟩ 7 ⟨"b", "m2"⟩ ⟨2⟩).status = 404 ∧
    (Routes.delete_student ⟨[⟨1, "a", "m1"⟩], [], []⟩ 7 ⟨2⟩).status = 404 :=
  ⟨by decide,
    (C4_missing_student_update_delete_404 ⟨[⟨1, "a", "m1"⟩], [], []⟩ 7 ⟨"b", "m2"⟩ ⟨2⟩
      (by decide)).1,
    (C4_missing_student_update_delete_404 ⟨[⟨1, "a", "m1"⟩], [], []⟩ 7 ⟨"b", "m2"⟩ ⟨2⟩
      (by decide)).2.2.1⟩

/-- C5: when a subscription for the (channel_id, student_id) pair already
exists, a create-subscription request by the matching student for the same
pair fails with status 400 and the database (hence the set of subscriptions)
is unchanged. -/
theorem C5_duplicate_subscription_400 (db : DB) (sub : SubscriptionCreate)
    (cur : StudentJWT)
    (hid : cur.student_id = sub.student_id)
    (hex : ∃ x ∈ db.subs, x.channel_id = sub.channel_id ∧ x.student_id = sub.student_id) :
    (Routes.create_new_subscription db sub cur).status = 400 ∧
    (Routes.create_new_subscription db sub cur).db = db := by
  have hsome : (Crud.get_sub_by_channel_and_student db sub.channel_id sub.student_id).isSome := by
    obtain ⟨x, hx, h1, h2⟩ := hex
    exact List.find?_isSome.mpr ⟨x, hx, by simp [h1, h2]⟩
  unfold Routes.create_new_subscription
  simp only []
  rw [if_neg (by simp [hid]), if_pos hsome]
  exact ⟨rfl, rfl⟩

/-- Witness for C5: student 1 re-subscribing to channel 2. -/
theorem C5_duplicate_subscription_400_witness :
    (∃ x ∈ (⟨[], [], [⟨2, 1⟩]⟩ : DB).subs, x.channel_id = 2 ∧ x.student_id = 1) ∧
    (Routes.create_new_subscription ⟨[], [], [⟨2, 1⟩]⟩ ⟨2, 1⟩ ⟨1⟩).status = 400 ∧
    (Routes.create_new_subscription ⟨[], [], [⟨2, 1⟩]⟩ ⟨2, 1⟩ ⟨1⟩).db = ⟨[], [], [⟨2, 1⟩]⟩ :=
  ⟨by decide,
    C5_duplicate_subscription_400 ⟨[], [], [⟨2, 1⟩]⟩ ⟨2, 1⟩ ⟨1⟩ (by decide) (by decide)⟩

/-- C6: a delete-subscription request by the matching caller for a pair with
no stored subscription fails with status 404 and the database is unchanged. -/
theorem C6_unsubscribe_missing_404 (db : DB) (channel_id student_id : Int)
    (cur : StudentJWT)
    (hid : cur.student_id = student_id)
    (hno : ∀ x ∈ db.subs, ¬(x.channel_id = channel_id ∧ x.student_id = student_id)) :
    (Routes.unsubscribe db channel_id student_id cur).status = 404 ∧
    (Routes.unsubscribe db channel_id student_id cur).db = db := by
  have hn : Crud.get_sub_by_channel_and_student db channel_id student_id = none :=
    List.find?_eq_none.mpr fun x hx => by simpa using hno x hx
  unfold Routes.unsubscribe
  rw [if_neg (by simp [hid]), if_pos (by simp [hn])]
  exact ⟨rfl, rfl⟩

/-- Witness for C6: student 1 unsubscribing from channel 9 with no such row. -/
theorem C6_unsubscribe_missing_404_witness :
    (∀ x ∈ (⟨[], [], [⟨2, 1⟩]⟩ : DB).subs, ¬(x.channel_id = 9 ∧ x.student_id = 1)) ∧
    (Routes.unsubscribe ⟨[], [], [⟨2, 1⟩]⟩ 9 1 ⟨1⟩).status = 404 ∧
    (Routes.unsubscribe ⟨[], [], [⟨2, 1⟩]⟩ 9 1 ⟨1⟩).db = ⟨[], [], [⟨2, 1⟩]⟩ :=
  ⟨by decide, C6_unsubscribe_missing_404 ⟨[], [], [⟨2, 1⟩]⟩ 9 1 ⟨1⟩ (by decide) (by decide)⟩

/-- C7: a create-subscription request by the matching caller for a pair not
already subscribed is rejected with status 404 when the referenced channel
or the referenced student does not exist, and no subscription is created. -/
theorem C7_missing_channel_or_student_404 (db : DB) (sub : SubscriptionCreate)
    (cur : StudentJWT)
    (hid : cur.student_id = sub.student_id)
    (hnodup : ∀ x ∈ db.subs, ¬(x.channel_id = sub.channel_id ∧ x.student_id = sub.student_id))
    (hmiss : (∀ ch ∈ db.channels, ch.id ≠ sub.channel_id) ∨
             (∀ t ∈ db.students, t.id ≠ sub.student_id)) :
    (Routes.create_new_subscription db sub cur).status = 404 ∧
    (Routes.create_new_subscription db sub cur).db = db := by
  have hdup : Crud.get_sub_by_channel_and_student db sub.channel_id sub.student_id = none :=
    List.find?_eq_none.mpr fun x hx => by simpa using hnodup x hx
  unfold Routes.create_new_subscription
  simp only []
  rw [if_neg (by simp [hid]), if_neg (by simp [hdup])]
  rcases hmiss with hch | hst
  · have hc : Crud.get_channel db sub.channel_id = none :=
      List.find?_eq_none.mpr fun ch h => by simpa using hch ch h
    rw [if_pos (by simp [hc])]
    exact ⟨rfl, rfl⟩
  · by_cases hc : (Crud.get_channel db sub.channel_id).isNone
    · rw [if_pos hc]
      exact ⟨rfl, rfl⟩
    · have hs : Crud.get_student db sub.student_id = none :=
        List.find?_eq_none.mpr fun t h => by simpa using hst t h
      rw [if_neg hc, if_pos (by simp [hs])]
      exact ⟨rfl, rfl⟩

/-- Witness for C7: student 1 subscribing to the absent channel 9. -/
theorem C7_missing_channel_or_student_404_witness :
    (∀ x ∈ (⟨[⟨1, "a", "m1"⟩], [], []⟩ : DB).subs, ¬(x.channel_id = 9 ∧ x.student_id = 1)) ∧
    (∀ ch ∈ (⟨[⟨1, "a", "m1"⟩], [], []⟩ : DB).channels, ch.id ≠ 9) ∧
    (Routes.create_new_subscription ⟨[⟨1, "a", "m1"⟩], [], []⟩ ⟨9, 1⟩ ⟨1⟩).status = 404 ∧
    (Routes.create_new_subscription ⟨[⟨1, "a", "m1"⟩], [], []⟩ ⟨9, 1⟩ ⟨1⟩).db =
      ⟨[⟨1, "a", "m1"⟩], [], []⟩ :=
  ⟨by decide, by decide,
    C7_missing_channel_or_student_404 ⟨[⟨1, "a", "m1"⟩], [], []⟩ ⟨9, 1⟩ ⟨1⟩
      (by decide) (by decide) (Or.inl (by decide))⟩

/-- C10: in create-subscription the permission check decides first: whenever
the body student id differs from the caller identity the result is 403 with
the database unchanged, for every database state — whether or not the pair
is already subscribed and whether or not the channel or student exists. -/
theorem C10_permission_check_precedes (db : DB) (sub : SubscriptionCreate)
    (cur : StudentJWT)
    (h : sub.student_id ≠ cur.student_id) :
    (Routes.create_new_subscription db sub cur).status = 403 ∧
    (Routes.create_new_subscription db sub cur).db = db := by
  unfold Routes.create_new_subscription
  simp only []
  rw [if_pos (by simp [h])]
  exact ⟨rfl, rfl⟩

/-- Witness for C10: caller 2 sending a body for student 1 on a state where
the pair is already subscribed and channel and student both exist. -/
theorem C10_permission_check_precedes_witness :
    (1 : Int) ≠ 2 ∧
    (Routes.create_new_subscription ⟨[⟨1, "a", "m1"⟩], [⟨2⟩], [⟨2, 1⟩]⟩ ⟨2, 1⟩ ⟨2⟩).status = 403 ∧
    (Routes.create_new_subscription ⟨[⟨1, "a", "m1"⟩], [⟨2⟩], [⟨2, 1⟩]⟩ ⟨2, 1⟩ ⟨2⟩).db =
      ⟨[⟨1, "a", "m1"⟩], [⟨2⟩], [⟨2, 1⟩]⟩ :=
  ⟨by decide,
    C10_permission_check_precedes ⟨[⟨1, "a", "m1"⟩], [⟨2⟩], [⟨2, 1⟩]⟩ ⟨2, 1⟩ ⟨2⟩ (by decide)⟩

/-- Written from the words of claim C9, for comparison with the route
handler: the list of exactly the stored subscriptions matching the supplied
filters — both filters when both are supplied, one filter when only it is
supplied, and all subscriptions paginated by skip and limit when neither is
supplied. -/
def claimedGetSubscriptions (db : DB) (channel_id student_id : Option Int)
    (skip limit : Nat) : List Subscription :=
  match channel_id, student_id with
  | some c, some s => db.subs.filter (fun x => x.channel_id == c && x.student_id == s)
  | some c, none => db.subs.filter (fun x => x.channel_id == c)
  | none, some s => db.subs.filter (fun x => x.student_id == s)
  | none, none => (db.subs.drop skip).take limit

/-- What GET /subscriptions/ actually computes, written directly over the
subscription table: with both filters supplied, the first matching row (or
nothing) as a single optional value rather than a list; with only one filter
supplied and nonzero, the list of exactly the matching rows; otherwise —
neither filter supplied, or the only supplied filter equal to 0 — all
subscriptions paginated by skip and limit. -/
def amendedGetSubscriptions (db : DB) (channel_id student_id : Option Int)
    (skip limit : Nat) : SubsQueryResult :=
  match channel_id, student_id with
  | some c, some s =>
    .single ((db.subs.filter (fun x => x.channel_id == c && x.student_id == s)).head?)
  | some c, none =>
    if c ≠ 0 then .list (db.subs.filter (fun x => x.channel_id == c))
    else .list ((db.subs.drop skip).take limit)
  | none, some s =>
    if s ≠ 0 then .list (db.subs.filter (fun x => x.student_id == s))
    else .list ((db.subs.drop skip).take limit)
  | none, none => .list ((db.subs.drop skip).take limit)

/-- A first match is the head of the filtered list. -/
theorem find?_eq_head?_filter {α : Type} (p : α → Bool) (l : List α) :
    l.find? p = (l.filter p).head? := by
  induction l with
  | nil => rfl
  | cons a l ih =>
    rw [List.find?_cons, List.filter_cons]
    cases h : p a
    · rw [ih]
      rfl
    · rfl

/-- C9 counterexample: with one stored subscription (channel 1, student 5)
and the single supplied filter channel_id = 0, the claim says the result is
the empty list of subscriptions with channel_id 0, but the handler falls
through the falsy `elif channel_id:` test and returns all subscriptions. -/
theorem C9_counterexample_zero_channel_filter :
    Routes.get_subscriptions ⟨[], [], [⟨1, 5⟩]⟩ (some 0) none 0 100 ≠
      SubsQueryResult.list (claimedGetSubscriptions ⟨[], [], [⟨1, 5⟩]⟩ (some 0) none 0 100) := by
  decide

/-- C9 amended: GET /subscriptions/ returns the first matching row (or
nothing) as a single optional value when both filters are supplied; the list
of exactly the rows matching the one supplied filter when that filter is
nonzero; and all subscriptions paginated by skip and limit when no filter is
supplied or the only supplied filter is 0. -/
theorem C9_get_subscriptions_amended (db : DB) (channel_id student_id : Option Int)
    (skip limit : Nat) :
    Routes.get_subscriptions db channel_id student_id skip limit =
      amendedGetSubscriptions db channel_id student_id skip limit := by
  cases channel_id with
  | some c =>
    cases student_id with
    | some s =>
      unfold Routes.get_subscriptions amendedGetSubscriptions
      simp only [Crud.get_sub_by_channel_and_student]
      rw [find?_eq_head?_filter]
    | none =>
      unfold Routes.get_subscriptions amendedGetSubscriptions
      dsimp only
      by_cases hc : c = 0
      · rw [if_neg (by simp [hc]), if_neg (by simp [hc])]
        rfl
      · rw [if_pos (by simp [hc]), if_pos hc]
        rfl
  | none =>
    cases student_id with
    | some s =>
      unfold Routes.get_subscriptions amendedGetSubscriptions
      dsimp only
      by_cases hs : s = 0
      · rw [if_neg (by simp [hs]), if_neg (by simp [hs])]
        rfl
      · rw [if_pos (by simp [hs]), if_pos hs]
        rfl
    | none => rfl

/-- C8 evidence: at a state holding student 1 and subscription (2, 1), the
successful DELETE /students/1 by caller 1 and the successful DELETE
/subscriptions/ for (2, 1) by caller 1 both respond with status 200 — not
the 204 declared on the route decorators — because each handler returns a
`JSONResponse` built without a status code, which FastAPI sends as-is.  The
conjuncts on the resulting state show these are indeed the success paths:
the targeted rows are deleted. -/
theorem C8_successful_delete_status_is_200 :
    (Routes.delete_student ⟨[⟨1, "a", "m1"⟩], [⟨2⟩], [⟨2, 1⟩]⟩ 1 ⟨1⟩).status = 200 ∧
    (Routes.delete_student ⟨[⟨1, "a", "m1"⟩], [⟨2⟩], [⟨2, 1⟩]⟩ 1 ⟨1⟩).db.students = [] ∧
    (Routes.unsubscribe ⟨[⟨1, "a", "m1"⟩], [⟨2⟩], [⟨2, 1⟩]⟩ 2 1 ⟨1⟩).status = 200 ∧
    (Routes.unsubscribe ⟨[⟨1, "a", "m1"⟩], [⟨2⟩], [⟨2, 1⟩]⟩ 2 1 ⟨1⟩).db.subs = [] := by
  decide

end AnnouncementApp
